import Mathlib

/-!
Verification development for the web-perf-report worker.

The final revision of the repository stores job records in a key-value
namespace (`src/unnamed/part_002`, a KV-backed `services/storage`), drives
them through the status state machine with the publicId-based
`runFullReport` (second half of `src/services/report.ts`), and serves them
through `src/handlers/report-handler.ts`.  The SQL-backed query
`getRecordByUrlAndTime` of `src/services/storage.ts` is also embedded for
the URL/freshness lookup.  Timestamps are JS millisecond numbers, embedded
as `Int`; JSON round-trips through `JSON.stringify`/`JSON.parse` are taken
as the identity on the embedded record structure.
-/

namespace WebPerf

/-- JS truthiness of a possibly-absent string field (`undefined`, `""` are falsy). -/
def jsTruthyStr : Option String → Bool
  | none => false
  | some s => s ≠ ""

/-- JS `a || b` for a possibly-absent string `a` and a string default `b`:
the first truthy value wins. -/
def jsOrStr (a : Option String) (b : String) : String :=
  match a with
  | some s => if s = "" then b else s
  | none => b

/-- One KV lookup: first binding for the key, as Workers KV `get` returns the
stored value or `null`. -/
def kvGet {α : Type} (m : List (String × α)) (k : String) : Option α :=
  (m.find? (fun p => p.1 == k)).map (·.2)

/-- One KV write: overwrite the first binding for the key, or append a new one
(Workers KV `put` semantics on a single key). -/
def kvPut {α : Type} (m : List (String × α)) (k : String) (v : α) : List (String × α) :=
  match m with
  | [] => [(k, v)]
  | (k₁, v₁) :: rest => if k₁ == k then (k, v) :: rest else (k₁, v₁) :: kvPut rest k v

theorem kvGet_nil {α : Type} (k : String) : kvGet ([] : List (String × α)) k = none := rfl

theorem kvGet_cons {α : Type} (k₁ : String) (v₁ : α) (tl : List (String × α)) (k : String) :
    kvGet ((k₁, v₁) :: tl) k = if k₁ = k then some v₁ else kvGet tl k := by
  simp only [kvGet, List.find?]
  by_cases h : k₁ = k
  · simp [h]
  · have hb : (k₁ == k) = false := beq_eq_false_iff_ne.mpr h
    simp [hb, h]

theorem kvGet_kvPut_self {α : Type} (m : List (String × α)) (k : String) (v : α) :
    kvGet (kvPut m k v) k = some v := by
  induction m with
  | nil => simp [kvGet, kvPut]
  | cons hd tl ih =>
    obtain ⟨k₁, v₁⟩ := hd
    by_cases h : k₁ = k
    · subst h
      simp [kvPut, kvGet_cons]
    · simp only [kvPut, beq_iff_eq, h, if_false]
      rw [kvGet_cons, if_neg h]
      exact ih

theorem kvGet_kvPut_ne {α : Type} (m : List (String × α)) (k k₂ : String) (v : α)
    (h : k₂ ≠ k) : kvGet (kvPut m k v) k₂ = kvGet m k₂ := by
  induction m with
  | nil => simp [kvGet, kvPut, kvGet_cons, Ne.symm h]
  | cons hd tl ih =>
    obtain ⟨k₁, v₁⟩ := hd
    by_cases h₁ : k₁ = k
    · subst h₁
      simp only [kvPut, beq_self_eq_true, if_true]
      rw [kvGet_cons, kvGet_cons, if_neg (Ne.symm h), if_neg (Ne.symm h)]
    · simp only [kvPut, beq_iff_eq, h₁, if_false]
      rw [kvGet_cons, kvGet_cons]
      by_cases h₂ : k₁ = k₂
      · simp [h₂]
      · rw [if_neg h₂, if_neg h₂]
        exact ih

/-! ## Constants (src/constants.ts, report-handler.ts) -/

/-- CACHE_DURATION_MS from src/constants.ts: one hour. -/
def CACHE_DURATION_MS : Int := 3600000

/-- RESULTS_EXPIRY_DAYS from src/constants.ts. -/
def RESULTS_EXPIRY_DAYS : Int := 3

/-- STUCK_PROCESSING_THRESHOLD_MS from report-handler.ts and
stuck-requests-handler.ts: three minutes. -/
def STUCK_PROCESSING_THRESHOLD_MS : Int := 3 * 60 * 1000

/-! ## Data model

The JSON values the code passes around in the `data` slot of requests are
only ever the empty object, the empty array, a structured error object
`\x7b error, stack? \x7d`, or opaque text; an inductive keeps them apart
without modelling full JSON. -/

inductive JsonData : Type
  | obj0 : JsonData
  | arr0 : JsonData
  | errObj (error : String) (stack : Option String) : JsonData
  | raw (s : String) : JsonData
  deriving Repr, DecidableEq

/-- StoredRecord from src/unnamed/part_002: the KV-persisted job record.
JS `number | null` timestamps become `Option Int`. -/
structure StoredRecord : Type where
  publicId : String
  url : String
  formFactor : String
  date : Int
  status : String
  dataUrl : String
  processingStartedAt : Option Int
  deriving Repr, DecidableEq

/-- CreateRecordRequest from the types module (src/unnamed/part_000). -/
structure CreateRecordRequest : Type where
  requestUrl : String
  formFactor : String
  status : String
  data : JsonData
  deriving Repr, DecidableEq

/-- UpdateRecordRequest as consumed by the KV updateRecord: publicId keyed.
The TS field `processingStartedAt?: number | null` is read through `?? null`,
which identifies absent and null, so a single `Option Int` is faithful. -/
structure UpdateRecordRequest : Type where
  publicId : String
  status : String
  data : JsonData
  dataUrl : String
  processingStartedAt : Option Int
  deriving Repr, DecidableEq

/-- The two KV namespaces of src/unnamed/part_002: record:\x7bpublicId\x7d
holding serialized records and url:\x7burl\x7d holding the publicId of the
most recently created record for that URL.  Serialization by JSON.stringify
and JSON.parse is taken as the identity on StoredRecord. -/
structure KVStore : Type where
  records : List (String × StoredRecord)
  urls : List (String × String)
  deriving Repr, DecidableEq

def recordKey (publicId : String) : String := "record:" ++ publicId

def urlKey (url : String) : String := "url:" ++ url

/-- createPendingRecord from src/unnamed/part_002 (lines 38 to 57).  The
crypto.randomUUID result and Date.now are passed in as freshId and now. -/
def createPendingRecord (request : CreateRecordRequest) (freshId : String) (now : Int)
    (s : KVStore) : KVStore × String :=
  let record : StoredRecord :=
    { publicId := freshId
      url := request.requestUrl
      formFactor := request.formFactor
      date := now
      status := request.status
      dataUrl := ""
      processingStartedAt := none }
  ({ records := kvPut s.records (recordKey freshId) record
     urls := kvPut s.urls (urlKey request.requestUrl) freshId },
   freshId)

/-- The record produced by the KV updateRecord spread: the existing record
with status, dataUrl and processingStartedAt overwritten. -/
def applyUpdate (request : UpdateRecordRequest) (record : StoredRecord) : StoredRecord :=
  { record with
    status := request.status
    dataUrl := request.dataUrl
    processingStartedAt := request.processingStartedAt }

/-- updateRecord from src/unnamed/part_002 (lines 62 to 78): looks up the
record by publicId, returns null (none) when absent, otherwise spreads the
existing record and overwrites status, dataUrl and processingStartedAt
(the last one via request.processingStartedAt ?? null).  The data field of
the request is not part of StoredRecord and is dropped. -/
def updateRecord (request : UpdateRecordRequest) (s : KVStore) : KVStore × Option Int :=
  match kvGet s.records (recordKey request.publicId) with
  | none => (s, none)
  | some record =>
    ({ s with records := kvPut s.records (recordKey request.publicId) (applyUpdate request record) },
     some 1)

/-- RecordResponse from the types module: exactly the five fields every
storage read path returns.  Note there is no processingStartedAt field. -/
structure RecordResponse : Type where
  publicId : String
  url : String
  status : String
  dataUrl : String
  data : Option String
  deriving Repr, DecidableEq

/-- recordToResponse from src/unnamed/part_002 (lines 80 to 103): data is
null unless dataUrl is truthy and the blob exists, in which case the blob
text is attached.  The R2 bucket is an association list key to body. -/
def recordToResponse (bucket : List (String × String)) (record : StoredRecord) :
    RecordResponse :=
  { publicId := record.publicId
    url := record.url
    status := record.status
    dataUrl := record.dataUrl
    data := if record.dataUrl ≠ "" then kvGet bucket record.dataUrl else none }

/-- getRecordByUrl from src/unnamed/part_002 (lines 108 to 123): resolve the
url index to a publicId, load that record, and discard it when its date is
below the freshness threshold. -/
def getRecordByUrl (requestUrl : String) (timeThreshold : Int)
    (bucket : List (String × String)) (s : KVStore) : Option RecordResponse :=
  match kvGet s.urls (urlKey requestUrl) with
  | none => none
  | some publicId =>
    match kvGet s.records (recordKey publicId) with
    | none => none
    | some record =>
      if record.date < timeThreshold then none
      else some (recordToResponse bucket record)

/-- getRecordByPublicId from src/unnamed/part_002 (lines 128 to 137). -/
def getRecordByPublicId (publicId : String) (bucket : List (String × String))
    (s : KVStore) : Option RecordResponse :=
  (kvGet s.records (recordKey publicId)).map (recordToResponse bucket)

/-- The record shape returned by getStuckProcessingRecords (id is always 0
under the KV store, data always null). -/
structure StuckDto : Type where
  id : Int
  publicId : String
  url : String
  formFactor : String
  date : Int
  status : String
  processingStartedAt : Option Int
  data : Option String
  deriving Repr, DecidableEq

def stuckDtoOf (record : StoredRecord) : StuckDto :=
  { id := 0
    publicId := record.publicId
    url := record.url
    formFactor := record.formFactor
    date := record.date
    status := record.status
    processingStartedAt := record.processingStartedAt
    data := none }

/-- getStuckProcessingRecords from src/unnamed/part_002 (lines 256 to 314):
cutoff is now minus maxProcessingDurationMs; a record is returned exactly
when status is processing, processingStartedAt is not null, and
processingStartedAt is below the cutoff. -/
def getStuckProcessingRecords (maxProcessingDurationMs : Int) (now : Int)
    (s : KVStore) : List StuckDto :=
  s.records.filterMap (fun kv =>
    let record := kv.2
    if record.status = "processing" then
      match record.processingStartedAt with
      | some t => if t < now - maxProcessingDurationMs then some (stuckDtoOf record) else none
      | none => none
    else none)

/-! ## Blob store writes (saveResultsToBucket) -/

/-- Uppercase hexadecimal digit, as produced by encodeURIComponent. -/
def hexDigit (n : Nat) : Char :=
  if n < 10 then Char.ofNat (48 + n) else Char.ofNat (55 + n)

/-- UTF-8 bytes of a character, as Nat values below 256. -/
def utf8Bytes (c : Char) : List Nat :=
  let n := c.toNat
  if n < 128 then [n]
  else if n < 2048 then [192 + n / 64, 128 + n % 64]
  else if n < 65536 then [224 + n / 4096, 128 + (n / 64) % 64, 128 + n % 64]
  else [240 + n / 262144, 128 + (n / 4096) % 64, 128 + (n / 64) % 64, 128 + n % 64]

/-- The characters ECMAScript encodeURIComponent leaves unescaped: ASCII
letters and digits plus minus, underscore, dot, bang, tilde, star, the
single-quote character (code 39), and parentheses. -/
def isUnescapedECP (c : Char) : Bool :=
  (c.isAlpha && c.toNat < 128) || c.isDigit ||
    c ∈ ['-', '_', '.', '!', '~', '*', Char.ofNat 39, '(', ')']

/-- encodeURIComponent: keep unescaped characters, percent-encode every
UTF-8 byte of the rest with uppercase hex. -/
def encodeURIComponent (s : String) : String :=
  s.data.foldl (fun acc c =>
    if isUnescapedECP c then acc.push c
    else (utf8Bytes c).foldl (fun a b => ((a.push (Char.ofNat 37)).push (hexDigit (b / 16))).push (hexDigit (b % 16))) acc) ""

/-- The R2 object key built by saveResultsToBucket in src/unnamed/part_002
(lines 200 to 219) when a publicId is supplied, as the final runFullReport
does: RESULTS_BUCKET_PREFIX (the string results/) ++ publicId ++ "-" ++
encodeURIComponent url ++ ".json". -/
def bucketKey (idPart url : String) : String :=
  "results/" ++ idPart ++ "-" ++ encodeURIComponent url ++ ".json"

/-- One R2 put as issued by saveResultsToBucket: the expiresAt custom
metadata is the instant now + RESULTS_EXPIRY_DAYS days in ms (its ISO-8601
rendering is presentation only and elided). -/
structure BlobPut : Type where
  key : String
  body : String
  contentType : String
  expiresAtMs : Int
  deriving Repr, DecidableEq

/-- saveResultsToBucket from src/unnamed/part_002 called with a publicId:
returns the put it performs; the caller uses put.key as the dataUrl. -/
def saveResultsToBucket (publicId url body : String) (now : Int) : BlobPut :=
  { key := bucketKey publicId url
    body := body
    contentType := "application/json"
    expiresAtMs := now + RESULTS_EXPIRY_DAYS * 24 * 60 * 60 * 1000 }

/-! ## Upstream client results and the orchestrator (services/report.ts) -/

/-- Return value of fetchPageSpeedData: on a non-ok HTTP status an object
with an error field holding the response body text, otherwise the payload
JSON (payload stands for the serialized response object). -/
structure ApiResult : Type where
  error : Option String
  payload : String
  deriving Repr, DecidableEq

/-- JSON.stringify of the two-element array [mobileData, desktopData],
given the serializations of the two elements. -/
def stringifyPair (mobile desktop : ApiResult) : String :=
  "[" ++ mobile.payload ++ "," ++ desktop.payload ++ "]"

/-- The stack of a thrown JS Error: V8 begins it with the line
Error: message; only its presence and prefix matter here. -/
def errStackOf (message : String) : String := "Error: " ++ message

/-- The processing update runFullReport issues first: status processing,
empty data and dataUrl, processingStartedAt = Date.now. -/
def procReqOf (publicId : String) (now : Int) : UpdateRecordRequest :=
  { publicId := publicId
    status := "processing"
    data := .obj0
    dataUrl := ""
    processingStartedAt := some now }

/-- The message of the error runFullReport throws when a fetch result has
a truthy error field: the PageSpeed API error prefix and then
mobileData.error || desktopData.error || the Unknown error fallback. -/
def failMessageOf (mobile desktop : ApiResult) : String :=
  "PageSpeed API error: " ++ jsOrStr mobile.error (jsOrStr desktop.error "Unknown error")

/-- The failed update of the catch block: status failed, the structured
error-and-stack payload, empty dataUrl, no processingStartedAt. -/
def failReqOf (publicId message : String) : UpdateRecordRequest :=
  { publicId := publicId
    status := "failed"
    data := .errObj message (some (errStackOf message))
    dataUrl := ""
    processingStartedAt := none }

/-- The completed update of the success path: status completed, empty array
data, dataUrl = the R2 key, no processingStartedAt. -/
def compReqOf (publicId dataUrl : String) : UpdateRecordRequest :=
  { publicId := publicId
    status := "completed"
    data := .arr0
    dataUrl := dataUrl
    processingStartedAt := none }

/-- Everything observable about one runFullReport invocation: the final
store, the R2 puts performed, the update requests issued to the store, and
the boolean return value. -/
structure ReportOutcome : Type where
  store : KVStore
  puts : List BlobPut
  updates : List UpdateRecordRequest
  ok : Bool
  deriving Repr, DecidableEq

/-- runFullReport, publicId revision (src/services/report.ts lines 125 to
225): guard on a falsy url; create a pending record when publicId is absent
or falsy; mark processing with processingStartedAt = now; join the two
fetches (their results are inputs); on a truthy error field of either,
throw, catch, and mark failed with an error-and-stack payload and empty
dataUrl, returning false; otherwise save [mobile, desktop] to R2 and mark
completed with dataUrl = the R2 key, returning true.  Date.now is the
single instant now; the fetch results are passed in. -/
def runFullReport (url : String) (publicId : Option String) (freshId : String)
    (mobile desktop : ApiResult) (now : Int) (s : KVStore) : ReportOutcome :=
  if url = "" then { store := s, puts := [], updates := [], ok := false }
  else
    let created :=
      match publicId with
      | none => createPendingRecord ⟨url, "ALL", "pending", .obj0⟩ freshId now s
      | some p =>
        if p = "" then createPendingRecord ⟨url, "ALL", "pending", .obj0⟩ freshId now s
        else (s, p)
    let s₁ := created.1
    let recordPublicId := created.2
    let procReq := procReqOf recordPublicId now
    let s₂ := (updateRecord procReq s₁).1
    if jsTruthyStr mobile.error || jsTruthyStr desktop.error then
      let failReq := failReqOf recordPublicId (failMessageOf mobile desktop)
      { store := (updateRecord failReq s₂).1
        puts := []
        updates := [procReq, failReq]
        ok := false }
    else
      let put := saveResultsToBucket recordPublicId url (stringifyPair mobile desktop) now
      let compReq := compReqOf recordPublicId put.key
      { store := (updateRecord compReq s₂).1
        puts := [put]
        updates := [procReq, compReq]
        ok := true }

/-! ## SQL-backed URL lookup (src/services/storage.ts) -/

/-- PageSpeedRecordRow from src/services/storage.ts. -/
structure SqlRow : Type where
  id : Int
  publicId : String
  url : String
  formFactor : String
  date : Int
  data : String
  status : String
  dataUrl : String
  deriving Repr, DecidableEq

/-- getRecordByUrlAndTime from src/services/storage.ts (lines 532 to 546):
SELECT rows WHERE url matches AND date at least the threshold, ORDER BY
date DESC LIMIT 1 — the row maximizing date among the matches (SQLite
leaves tie order unspecified; argmax picks the first maximal row). -/
def getRecordByUrlAndTime (rows : List SqlRow) (url : String) (timeThreshold : Int) :
    Option SqlRow :=
  (rows.filter (fun r => r.url = url && timeThreshold ≤ r.date)).argmax (fun r => r.date)

/-! ## HTTP handlers (src/handlers/report-handler.ts) -/

/-- Strict-equality key check of the root route:
url.searchParams.get returns string or null, the env credential is string
or undefined; `apiKey !== env.PAGESPEED_INSIGHTS_API` is false only when
both are strings and equal (null and undefined are strictly distinct). -/
def keyMatches (apiKey secret : Option String) : Bool :=
  match apiKey, secret with
  | some a, some b => a = b
  | _, _ => false

inductive RootBody : Type
  | missingUrl : RootBody
  | unauthorized : RootBody
  | record (r : Option RecordResponse) : RootBody
  deriving Repr, DecidableEq

structure RootOutcome : Type where
  status : Nat
  body : RootBody
  store : KVStore
  deriving Repr, DecidableEq

/-- handleReportRequest from src/handlers/report-handler.ts (lines 17 to
75): 400 on a falsy url parameter; look up the URL within the cache window;
return a completed, pending or processing record directly with 200 before
any key check; otherwise 401 unless the key strictly equals the secret; on
a valid key create a pending record and return the freshly loaded record
with 200.  Date.now is now, crypto.randomUUID is freshId. -/
def handleReportRequest (urlParam apiKey secret : Option String) (now : Int)
    (freshId : String) (bucket : List (String × String)) (s : KVStore) : RootOutcome :=
  match urlParam with
  | none => { status := 400, body := .missingUrl, store := s }
  | some requestUrl =>
    if requestUrl = "" then { status := 400, body := .missingUrl, store := s }
    else
      let timeThreshold := now - CACHE_DURATION_MS
      let existingRecord := getRecordByUrl requestUrl timeThreshold bucket s
      if existingRecord.any (fun r => r.status = "completed") then
        { status := 200, body := .record existingRecord, store := s }
      else if existingRecord.any (fun r => r.status = "pending" || r.status = "processing") then
        { status := 200, body := .record existingRecord, store := s }
      else if keyMatches apiKey secret then
        let created := createPendingRecord ⟨requestUrl, "ALL", "pending", .obj0⟩ freshId now s
        { status := 200
          body := .record (getRecordByPublicId created.2 bucket created.1)
          store := created.1 }
      else { status := 401, body := .unauthorized, store := s }

inductive GetReportBody : Type
  | errorMissingId : GetReportBody
  | errorNotFound : GetReportBody
  | record (r : RecordResponse) : GetReportBody
  deriving Repr, DecidableEq

structure GetReportOutcome : Type where
  status : Nat
  body : GetReportBody
  ranReport : Bool
  store : KVStore
  deriving Repr, DecidableEq

/-- The processingStartedAt property read by handleGetByPublicId on the
object returned by getRecordByPublicId.  Every storage read path
(recordToResponse in src/unnamed/part_002, and the DO getByPublicId
response in src/PageSpeedDurableObject.ts) builds that object with exactly
publicId, url, status, dataUrl and data, so in JS the read yields
undefined, embedded as none. -/
def respProcessingStartedAt (_record : RecordResponse) : Option Int := none

/-- JS loose inequality `x != null` for a possibly-absent number: false for
both undefined and null, true for a number. -/
def jsNeNull (x : Option Int) : Bool := x.isSome

/-- handleGetByPublicId from src/handlers/report-handler.ts (lines 83 to
121): 400 on a missing id, 404 on an unknown record; isStuck is computed
from record.processingStartedAt; the report runs inline when the status is
pending or isStuck, and the record is re-read (falling back to the stale
one) before responding 200.  The fetch results and fresh UUID feed the
inline runFullReport; R2 puts performed by it are applied to the bucket
before the re-read. -/
def handleGetByPublicId (idParam : Option String) (bucket : List (String × String))
    (s : KVStore) (now : Int) (freshId : String) (mobile desktop : ApiResult) :
    GetReportOutcome :=
  match idParam with
  | none => { status := 400, body := .errorMissingId, ranReport := false, store := s }
  | some publicId =>
    match getRecordByPublicId publicId bucket s with
    | none => { status := 404, body := .errorNotFound, ranReport := false, store := s }
    | some record =>
      let isStuck := record.status = "processing" &&
        jsNeNull (respProcessingStartedAt record) &&
        (match respProcessingStartedAt record with
         | some t => now - t > STUCK_PROCESSING_THRESHOLD_MS
         | none => false)
      if record.status = "pending" || isStuck then
        let out := runFullReport record.url (some record.publicId) freshId mobile desktop now s
        let bucket₂ := out.puts.foldl (fun b p => kvPut b p.key p.body) bucket
        let record₂ := (getRecordByPublicId publicId bucket₂ out.store).getD record
        { status := 200, body := .record record₂, ranReport := true, store := out.store }
      else
        { status := 200, body := .record record, ranReport := false, store := s }

/-! ## The store operations the system issues

Every mutation of the KV store performed anywhere in the final revision:
record creation with status pending (report-handler.ts line 60 and
report.ts line 140), the processing, completed and failed updates of
runFullReport, and the pending reset of stuck-requests-handler.ts (whose
request carries no publicId, so under the KV template-literal keying the
looked-up key is record:undefined; the op is parametrized by the publicId
string actually interpolated). -/

inductive SysOp : Type
  | create (url freshId : String) (now : Int)
  | markProcessing (publicId : String) (now : Int)
  | markCompleted (publicId url : String)
  | markFailed (publicId message : String)
  | resetPending (publicId : String) (data : JsonData)

/-- Apply one system-issued store operation, with the exact field values
the source passes at each call site. -/
def applySysOp (op : SysOp) (s : KVStore) : KVStore :=
  match op with
  | .create url freshId now =>
    (createPendingRecord ⟨url, "ALL", "pending", .obj0⟩ freshId now s).1
  | .markProcessing publicId now =>
    (updateRecord
      { publicId := publicId, status := "processing", data := .obj0, dataUrl := ""
        processingStartedAt := some now } s).1
  | .markCompleted publicId url =>
    (updateRecord
      { publicId := publicId, status := "completed", data := .arr0
        dataUrl := bucketKey publicId url, processingStartedAt := none } s).1
  | .markFailed publicId message =>
    (updateRecord
      { publicId := publicId, status := "failed"
        data := .errObj message (some (errStackOf message)), dataUrl := ""
        processingStartedAt := none } s).1
  | .resetPending publicId data =>
    (updateRecord
      { publicId := publicId, status := "pending", data := data, dataUrl := ""
        processingStartedAt := none } s).1

/-! ## Store invariants preserved by the system operations -/

/-- Every record binding in the store satisfies P. -/
def recordsSatisfy (P : StoredRecord → Prop) (s : KVStore) : Prop :=
  ∀ kv ∈ s.records, P kv.2

instance (P : StoredRecord → Prop) [DecidablePred P] (s : KVStore) :
    Decidable (recordsSatisfy P s) :=
  inferInstanceAs (Decidable (∀ kv ∈ s.records, P kv.2))

theorem kvPut_mem {α : Type} (m : List (String × α)) (k : String) (v : α) :
    ∀ p ∈ kvPut m k v, p ∈ m ∨ p = (k, v) := by
  induction m with
  | nil =>
    intro p hp
    simp [kvPut] at hp
    exact Or.inr hp
  | cons hd tl ih =>
    obtain ⟨k₁, v₁⟩ := hd
    intro p hp
    by_cases h : k₁ = k
    · simp only [kvPut, h, beq_self_eq_true, if_true, List.mem_cons] at hp
      rcases hp with hp | hp
      · exact Or.inr hp
      · exact Or.inl (List.mem_cons_of_mem _ hp)
    · simp only [kvPut, beq_iff_eq, h, if_false, List.mem_cons] at hp
      rcases hp with hp | hp
      · exact Or.inl (by simp [hp])
      · rcases ih p hp with h₂ | h₂
        · exact Or.inl (List.mem_cons_of_mem _ h₂)
        · exact Or.inr h₂

theorem recordsSatisfy_create (P : StoredRecord → Prop) (request : CreateRecordRequest)
    (freshId : String) (now : Int) (s : KVStore)
    (hs : recordsSatisfy P s)
    (hnew : P { publicId := freshId, url := request.requestUrl,
                formFactor := request.formFactor, date := now,
                status := request.status, dataUrl := "", processingStartedAt := none }) :
    recordsSatisfy P (createPendingRecord request freshId now s).1 := by
  intro kv hkv
  rcases kvPut_mem s.records (recordKey freshId) _ kv hkv with h | h
  · exact hs kv h
  · rw [h]
    exact hnew

theorem recordsSatisfy_update (P : StoredRecord → Prop) (request : UpdateRecordRequest)
    (s : KVStore) (hs : recordsSatisfy P s)
    (hmod : ∀ r, P (applyUpdate request r)) :
    recordsSatisfy P (updateRecord request s).1 := by
  unfold updateRecord
  cases hg : kvGet s.records (recordKey request.publicId) with
  | none => exact hs
  | some r₀ =>
    intro kv hkv
    rcases kvPut_mem s.records (recordKey request.publicId) _ kv hkv with h | h
    · exact hs kv h
    · rw [h]
      exact hmod r₀

/-- The C1 record property: processingStartedAt is non-null exactly when
the status is processing. -/
def processingConsistent (r : StoredRecord) : Prop :=
  r.processingStartedAt ≠ none ↔ r.status = "processing"

instance (r : StoredRecord) : Decidable (processingConsistent r) :=
  inferInstanceAs (Decidable (r.processingStartedAt ≠ none ↔ r.status = "processing"))

/-- The C2 record property: dataUrl is non-empty exactly when the status is
completed. -/
def dataUrlConsistent (r : StoredRecord) : Prop :=
  r.dataUrl ≠ "" ↔ r.status = "completed"

instance (r : StoredRecord) : Decidable (dataUrlConsistent r) :=
  inferInstanceAs (Decidable (r.dataUrl ≠ "" ↔ r.status = "completed"))

theorem bucketKey_ne_empty (idPart url : String) : bucketKey idPart url ≠ "" := by
  intro h
  have hd := congrArg String.data h
  simp [bucketKey, String.data_append] at hd

/-- C1: after every store operation the system issues (pending creation,
the processing, completed and failed updates of runFullReport, the pending
reset of the stuck handler), every record satisfies processingStartedAt
is non-null iff status is processing: the processing update persists
processingStartedAt = Date.now and every transition out of processing
writes it back to null. -/
theorem processingStartedAt_iff_processing_after_sysOp (op : SysOp) (s : KVStore)
    (h : recordsSatisfy processingConsistent s) :
    recordsSatisfy processingConsistent (applySysOp op s) := by
  cases op with
  | create url freshId now =>
    exact recordsSatisfy_create _ _ _ _ _ h (by simp [processingConsistent])
  | markProcessing publicId now =>
    exact recordsSatisfy_update _ _ _ h (fun r => by simp [processingConsistent, applyUpdate])
  | markCompleted publicId url =>
    exact recordsSatisfy_update _ _ _ h (fun r => by simp [processingConsistent, applyUpdate])
  | markFailed publicId message =>
    exact recordsSatisfy_update _ _ _ h (fun r => by simp [processingConsistent, applyUpdate])
  | resetPending publicId data =>
    exact recordsSatisfy_update _ _ _ h (fun r => by simp [processingConsistent, applyUpdate])

/-- Witness for C1: a store holding one pending record satisfies the
invariant, and still does after the processing update of runFullReport. -/
theorem processingStartedAt_iff_processing_witness :
    recordsSatisfy processingConsistent
      (applySysOp (SysOp.markProcessing "p" 5)
        { records := [(recordKey "p",
            { publicId := "p", url := "https://example.com", formFactor := "ALL",
              date := 0, status := "pending", dataUrl := "",
              processingStartedAt := none })],
          urls := [(urlKey "https://example.com", "p")] }) :=
  processingStartedAt_iff_processing_after_sysOp (SysOp.markProcessing "p" 5) _ (by decide)

/-- C2: after every store operation the system issues, every record
satisfies dataUrl is non-empty iff status is completed: creation writes an
empty dataUrl with status pending, the completed update writes the
non-empty R2 key, and the processing, failed and pending-reset updates all
write an empty dataUrl. -/
theorem dataUrl_iff_completed_after_sysOp (op : SysOp) (s : KVStore)
    (h : recordsSatisfy dataUrlConsistent s) :
    recordsSatisfy dataUrlConsistent (applySysOp op s) := by
  cases op with
  | create url freshId now =>
    exact recordsSatisfy_create _ _ _ _ _ h (by simp [dataUrlConsistent])
  | markProcessing publicId now =>
    exact recordsSatisfy_update _ _ _ h (fun r => by simp [dataUrlConsistent, applyUpdate])
  | markCompleted publicId url =>
    exact recordsSatisfy_update _ _ _ h
      (fun r => by
        simp only [dataUrlConsistent, applyUpdate]
        simpa using bucketKey_ne_empty publicId url)
  | markFailed publicId message =>
    exact recordsSatisfy_update _ _ _ h (fun r => by simp [dataUrlConsistent, applyUpdate])
  | resetPending publicId data =>
    exact recordsSatisfy_update _ _ _ h (fun r => by simp [dataUrlConsistent, applyUpdate])

/-- Witness for C2: the completed update on a store holding one processing
record keeps the invariant. -/
theorem dataUrl_iff_completed_witness :
    recordsSatisfy dataUrlConsistent
      (applySysOp (SysOp.markCompleted "p" "https://example.com")
        { records := [(recordKey "p",
            { publicId := "p", url := "https://example.com", formFactor := "ALL",
              date := 0, status := "processing", dataUrl := "",
              processingStartedAt := some 5 })],
          urls := [(urlKey "https://example.com", "p")] }) :=
  dataUrl_iff_completed_after_sysOp (SysOp.markCompleted "p" "https://example.com") _ (by decide)

/-! ## C4: updateRecord NotFound and field semantics -/

/-- A record sitting in processing with a recorded start instant. -/
def c4Record : StoredRecord :=
  { publicId := "p", url := "u", formFactor := "ALL", date := 0,
    status := "processing", dataUrl := "", processingStartedAt := some 5 }

def c4Store : KVStore :=
  { records := [(recordKey "p", c4Record)], urls := [(urlKey "u", "p")] }

/-- An update request that provides status and dataUrl (with their current
values) and omits processingStartedAt. -/
def c4Request : UpdateRecordRequest :=
  { publicId := "p", status := "processing", data := .obj0, dataUrl := "",
    processingStartedAt := none }

/-- Counterexample to C4: the claim predicts that a field not provided in
the request is left unchanged, so updating the processing record with a
request that omits processingStartedAt should leave the record (whose
status and dataUrl are re-sent unchanged) intact; the KV updateRecord
instead writes processingStartedAt back to null. -/
theorem updateRecord_omitted_field_counterexample :
    kvGet (updateRecord c4Request c4Store).1.records (recordKey "p") =
      some { c4Record with processingStartedAt := none } ∧
    kvGet (updateRecord c4Request c4Store).1.records (recordKey "p") ≠ some c4Record := by
  decide

/-- C4 (amended): if no record matches the identifier, updateRecord returns
NotFound (null) and leaves the store untouched; otherwise it overwrites
status, dataUrl and processingStartedAt with the request values — the last
becoming null whenever the request omits it, even if previously set —
keeps publicId, url, formFactor and date, drops the request data payload,
and leaves every other record and the url index unchanged. -/
theorem updateRecord_spec (request : UpdateRecordRequest) (s : KVStore) :
    (kvGet s.records (recordKey request.publicId) = none →
      updateRecord request s = (s, none)) ∧
    (∀ r₀, kvGet s.records (recordKey request.publicId) = some r₀ →
      (updateRecord request s).2 = some 1 ∧
      kvGet (updateRecord request s).1.records (recordKey request.publicId) =
        some (applyUpdate request r₀) ∧
      (applyUpdate request r₀).publicId = r₀.publicId ∧
      (applyUpdate request r₀).url = r₀.url ∧
      (applyUpdate request r₀).formFactor = r₀.formFactor ∧
      (applyUpdate request r₀).date = r₀.date ∧
      (applyUpdate request r₀).status = request.status ∧
      (applyUpdate request r₀).dataUrl = request.dataUrl ∧
      (applyUpdate request r₀).processingStartedAt = request.processingStartedAt ∧
      (updateRecord request s).1.urls = s.urls ∧
      (∀ k, k ≠ recordKey request.publicId →
        kvGet (updateRecord request s).1.records k = kvGet s.records k)) := by
  constructor
  · intro hnone
    unfold updateRecord
    rw [hnone]
  · intro r₀ hsome
    unfold updateRecord
    rw [hsome]
    refine ⟨rfl, ?_, rfl, rfl, rfl, rfl, rfl, rfl, rfl, rfl, ?_⟩
    · exact kvGet_kvPut_self _ _ _
    · intro k hk
      exact kvGet_kvPut_ne _ _ _ _ hk

/-- Witness for C4: the amended behavior at the concrete processing record
of the counterexample. -/
theorem updateRecord_spec_witness :
    (updateRecord c4Request c4Store).2 = some 1 ∧
    kvGet (updateRecord c4Request c4Store).1.records (recordKey "p") =
      some (applyUpdate c4Request c4Record) ∧
    (updateRecord c4Request c4Store).1.urls = c4Store.urls :=
  ⟨((updateRecord_spec c4Request c4Store).2 c4Record (by decide)).1,
   ((updateRecord_spec c4Request c4Store).2 c4Record (by decide)).2.1,
   ((updateRecord_spec c4Request c4Store).2 c4Record (by decide)).2.2.2.2.2.2.2.2.2.1⟩

/-! ## C5: freshness-windowed URL lookup -/

/-- C5: the SQL lookup getRecordByUrlAndTime returns a row for the URL with
date at least the threshold and maximal date among all such rows, and
returns NotFound (none) exactly when no row qualifies; the KV lookup
getRecordByUrl likewise never serves a record whose date is below the
threshold — the response it returns is built from a stored record with
date at least the threshold — and, whenever the url index points at a
record of maximal date for the URL (the shape creation maintains, since
each create repoints the index at the newest record), it returns exactly
that maximal record when fresh and NotFound when it is stale (in which
case, by maximality, no record for the URL qualifies). -/
theorem getByUrl_freshness_spec (rows : List SqlRow) (u : String) (t : Int) :
    (∀ r, getRecordByUrlAndTime rows u t = some r →
      r ∈ rows ∧ r.url = u ∧ t ≤ r.date ∧
      ∀ r₂ ∈ rows, r₂.url = u → t ≤ r₂.date → r₂.date ≤ r.date) ∧
    (getRecordByUrlAndTime rows u t = none ↔
      ∀ r₂ ∈ rows, r₂.url = u → ¬ t ≤ r₂.date) ∧
    (∀ (bucket : List (String × String)) (s : KVStore) (resp : RecordResponse),
      getRecordByUrl u t bucket s = some resp →
      ∃ publicId record, kvGet s.urls (urlKey u) = some publicId ∧
        kvGet s.records (recordKey publicId) = some record ∧
        t ≤ record.date ∧ resp = recordToResponse bucket record) ∧
    (∀ (bucket : List (String × String)) (s : KVStore) (publicId : String)
        (record : StoredRecord),
      kvGet s.urls (urlKey u) = some publicId →
      kvGet s.records (recordKey publicId) = some record →
      (∀ kv ∈ s.records, kv.2.url = u → kv.2.date ≤ record.date) →
      (t ≤ record.date → getRecordByUrl u t bucket s = some (recordToResponse bucket record)) ∧
      (record.date < t → getRecordByUrl u t bucket s = none)) := by
  refine ⟨?_, ?_, ?_, ?_⟩
  · intro r hr
    unfold getRecordByUrlAndTime at hr
    have hmem : r ∈ rows.filter (fun r₂ => r₂.url = u && t ≤ r₂.date) :=
      List.argmax_mem hr
    have hpred := List.of_mem_filter hmem
    have hmem₂ := List.mem_of_mem_filter hmem
    simp only [Bool.and_eq_true, decide_eq_true_eq] at hpred
    refine ⟨hmem₂, hpred.1, hpred.2, ?_⟩
    intro r₂ hr₂ hurl₂ hdate₂
    have hin : r₂ ∈ rows.filter (fun r₃ => r₃.url = u && t ≤ r₃.date) :=
      List.mem_filter.mpr ⟨hr₂, by simp [hurl₂, hdate₂]⟩
    exact List.le_of_mem_argmax hin hr
  · unfold getRecordByUrlAndTime
    rw [List.argmax_eq_none, List.filter_eq_nil_iff]
    constructor
    · intro h r₂ hr₂ hurl₂ hdate₂
      have := h r₂ hr₂
      simp [hurl₂, hdate₂] at this
    · intro h r₂ hr₂
      simp only [Bool.and_eq_true, decide_eq_true_eq, not_and]
      intro hurl₂
      exact h r₂ hr₂ hurl₂
  · intro bucket s resp hresp
    unfold getRecordByUrl at hresp
    cases hpid : kvGet s.urls (urlKey u) with
    | none => simp [hpid] at hresp
    | some publicId =>
      simp only [hpid] at hresp
      cases hrec : kvGet s.records (recordKey publicId) with
      | none => simp [hrec] at hresp
      | some record =>
        simp only [hrec] at hresp
        by_cases hlt : record.date < t
        · rw [if_pos hlt] at hresp; cases hresp
        · rw [if_neg hlt] at hresp
          exact ⟨publicId, record, rfl, hrec, by omega, (Option.some_inj.mp hresp).symm⟩
  · intro bucket s publicId record hpid hrec _hmax
    constructor
    · intro hfresh
      unfold getRecordByUrl
      simp only [hpid, hrec]
      rw [if_neg (by omega)]
    · intro hstale
      unfold getRecordByUrl
      simp only [hpid, hrec]
      rw [if_pos hstale]

/-- A qualifying and a stale row for the C5 witness. -/
def c5RowFresh : SqlRow :=
  { id := 1, publicId := "a", url := "u", formFactor := "ALL", date := 50,
    data := "", status := "completed", dataUrl := "k" }

def c5RowStale : SqlRow :=
  { id := 2, publicId := "b", url := "u", formFactor := "ALL", date := 5,
    data := "", status := "completed", dataUrl := "k2" }

/-- Witness for C5: on a two-row table the lookup picks the fresh row and
it is maximal among qualifying rows. -/
theorem getByUrl_freshness_spec_witness :
    c5RowFresh ∈ [c5RowStale, c5RowFresh] ∧ c5RowFresh.url = "u" ∧
    (10 : Int) ≤ c5RowFresh.date ∧
    ∀ r₂ ∈ [c5RowStale, c5RowFresh], r₂.url = "u" → (10 : Int) ≤ r₂.date →
      r₂.date ≤ c5RowFresh.date :=
  (getByUrl_freshness_spec [c5RowStale, c5RowFresh] "u" 10).1 c5RowFresh (by decide)

/-! ## C7: the stuck-processing scan -/

/-- C7: getStuckProcessingRecords returns exactly the records whose status
is processing and whose processingStartedAt is a non-null instant more
than maxProcessingDurationMs before now; records in any other status, and
processing records inside the threshold or with null processingStartedAt,
never appear. -/
theorem listStuckProcessing_spec (maxProcessingDurationMs now : Int) (s : KVStore)
    (d : StuckDto) :
    d ∈ getStuckProcessingRecords maxProcessingDurationMs now s ↔
      ∃ kv ∈ s.records, kv.2.status = "processing" ∧
        ∃ t, kv.2.processingStartedAt = some t ∧
          now - t > maxProcessingDurationMs ∧ d = stuckDtoOf kv.2 := by
  unfold getStuckProcessingRecords
  rw [List.mem_filterMap]
  constructor
  · rintro ⟨kv, hkv, hf⟩
    refine ⟨kv, hkv, ?_⟩
    by_cases hst : kv.2.status = "processing"
    · cases hpsa : kv.2.processingStartedAt with
      | none => simp [if_pos hst, hpsa] at hf
      | some t =>
        simp only [if_pos hst, hpsa] at hf
        by_cases hlt : t < now - maxProcessingDurationMs
        · rw [if_pos hlt] at hf
          exact ⟨hst, t, rfl, by omega, (Option.some_inj.mp hf).symm⟩
        · rw [if_neg hlt] at hf; cases hf
    · rw [if_neg hst] at hf; cases hf
  · rintro ⟨kv, hkv, hst, t, hpsa, hgt, rfl⟩
    refine ⟨kv, hkv, ?_⟩
    simp only [if_pos hst, hpsa]
    rw [if_pos (show t < now - maxProcessingDurationMs by omega)]

/-- A stuck processing record and a completed record for the C7 witness. -/
def c7Stuck : StoredRecord :=
  { publicId := "a", url := "u", formFactor := "ALL", date := 0,
    status := "processing", dataUrl := "", processingStartedAt := some 100000 }

def c7Done : StoredRecord :=
  { publicId := "b", url := "v", formFactor := "ALL", date := 0,
    status := "completed", dataUrl := "k", processingStartedAt := none }

def c7Store : KVStore :=
  { records := [(recordKey "a", c7Stuck), (recordKey "b", c7Done)],
    urls := [(urlKey "u", "a"), (urlKey "v", "b")] }

/-- Witness for C7: the record processing since instant 100000 is returned
by the scan at now = 600000 with a three-minute threshold. -/
theorem listStuckProcessing_spec_witness :
    stuckDtoOf c7Stuck ∈ getStuckProcessingRecords 180000 600000 c7Store :=
  (listStuckProcessing_spec 180000 600000 c7Store (stuckDtoOf c7Stuck)).mpr
    ⟨(recordKey "a", c7Stuck), by decide, by decide, 100000, rfl, by decide, rfl⟩

/-! ## Evaluation lemmas for the orchestrator -/

theorem updateRecord_found (request : UpdateRecordRequest) (s : KVStore) (r₀ : StoredRecord)
    (h : kvGet s.records (recordKey request.publicId) = some r₀) :
    (updateRecord request s).1.records =
      kvPut s.records (recordKey request.publicId) (applyUpdate request r₀) := by
  unfold updateRecord
  simp only [h]

theorem string_append_ne_empty (a b : String) (ha : a.data ≠ []) : a ++ b ≠ "" := by
  intro h
  have hd := congrArg String.data h
  rw [String.data_append] at hd
  exact ha (List.append_eq_nil.mp hd).1

theorem failMessageOf_ne_empty (mobile desktop : ApiResult) :
    failMessageOf mobile desktop ≠ "" := by
  unfold failMessageOf
  exact string_append_ne_empty _ _ (by decide)

/-- Evaluation of runFullReport on an existing publicId when one of the
fetch results carries a truthy error field. -/
theorem runFullReport_error_run (url pid freshId : String) (mobile desktop : ApiResult)
    (now : Int) (s : KVStore)
    (hurl : ¬ url = "") (hpid : ¬ pid = "")
    (herr : (jsTruthyStr mobile.error || jsTruthyStr desktop.error) = true) :
    runFullReport url (some pid) freshId mobile desktop now s =
      { store := (updateRecord (failReqOf pid (failMessageOf mobile desktop))
                    ((updateRecord (procReqOf pid now) s).1)).1
        puts := []
        updates := [procReqOf pid now, failReqOf pid (failMessageOf mobile desktop)]
        ok := false } := by
  unfold runFullReport
  rw [if_neg hurl]
  simp only [if_neg hpid, herr, if_true]

/-- Evaluation of runFullReport on an existing publicId when neither fetch
result carries a truthy error field. -/
theorem runFullReport_success_run (url pid freshId : String) (mobile desktop : ApiResult)
    (now : Int) (s : KVStore)
    (hurl : ¬ url = "") (hpid : ¬ pid = "")
    (hok : (jsTruthyStr mobile.error || jsTruthyStr desktop.error) = false) :
    runFullReport url (some pid) freshId mobile desktop now s =
      { store := (updateRecord (compReqOf pid (bucketKey pid url))
                    ((updateRecord (procReqOf pid now) s).1)).1
        puts := [saveResultsToBucket pid url (stringifyPair mobile desktop) now]
        updates := [procReqOf pid now, compReqOf pid (bucketKey pid url)]
        ok := true } := by
  unfold runFullReport
  rw [if_neg hurl]
  simp only [if_neg hpid, hok, if_false, Bool.false_eq_true, saveResultsToBucket]

/-! ## C3: upstream failure handling in runFullReport -/

def c3Record : StoredRecord :=
  { publicId := "p", url := "u", formFactor := "ALL", date := 0,
    status := "pending", dataUrl := "", processingStartedAt := none }

def c3Store : KVStore :=
  { records := [(recordKey "p", c3Record)], urls := [(urlKey "u", "p")] }

/-- Counterexample to C3: the mobile fetch returns an error result whose
message is the empty string (a non-ok upstream response with an empty
body), which C3 says must yield a failed record and a false return; the
truthiness check in runFullReport treats it as success, marks the record
completed with a non-empty dataUrl, and returns true. -/
theorem runFullReport_empty_error_message_counterexample :
    (runFullReport "u" (some "p") "f"
        { error := some "", payload := "m" } { error := none, payload := "d" }
        100 c3Store).ok = true ∧
    (kvGet (runFullReport "u" (some "p") "f"
        { error := some "", payload := "m" } { error := none, payload := "d" }
        100 c3Store).store.records (recordKey "p")).map (fun r => r.status) =
      some "completed" := by
  decide

/-- C3 (amended): whenever at least one of the two fetch results carries an
error with a non-empty message (a truthy error field), runFullReport
returns false, writes nothing to the blob store, issues as its final store
update a failed request with empty dataUrl and a structured payload whose
message is non-empty and whose stack is present, and leaves the record
with status failed, empty dataUrl and null processingStartedAt; an error
result with an empty message is instead treated as success. -/
theorem runFullReport_upstream_error_marks_failed (url pid freshId : String)
    (mobile desktop : ApiResult) (now : Int) (s : KVStore) (r₀ : StoredRecord)
    (hurl : url ≠ "") (hpid : pid ≠ "")
    (hrec : kvGet s.records (recordKey pid) = some r₀)
    (herr : (jsTruthyStr mobile.error || jsTruthyStr desktop.error) = true) :
    (runFullReport url (some pid) freshId mobile desktop now s).ok = false ∧
    (runFullReport url (some pid) freshId mobile desktop now s).puts = [] ∧
    (runFullReport url (some pid) freshId mobile desktop now s).updates.getLast? =
      some (failReqOf pid (failMessageOf mobile desktop)) ∧
    failMessageOf mobile desktop ≠ "" ∧
    (failReqOf pid (failMessageOf mobile desktop)).data =
      .errObj (failMessageOf mobile desktop) (some (errStackOf (failMessageOf mobile desktop))) ∧
    kvGet (runFullReport url (some pid) freshId mobile desktop now s).store.records
        (recordKey pid) =
      some (applyUpdate (failReqOf pid (failMessageOf mobile desktop))
        (applyUpdate (procReqOf pid now) r₀)) ∧
    (applyUpdate (failReqOf pid (failMessageOf mobile desktop))
        (applyUpdate (procReqOf pid now) r₀)).status = "failed" ∧
    (applyUpdate (failReqOf pid (failMessageOf mobile desktop))
        (applyUpdate (procReqOf pid now) r₀)).dataUrl = "" ∧
    (applyUpdate (failReqOf pid (failMessageOf mobile desktop))
        (applyUpdate (procReqOf pid now) r₀)).processingStartedAt = none := by
  rw [runFullReport_error_run url pid freshId mobile desktop now s hurl hpid herr]
  have hproc : kvGet ((updateRecord (procReqOf pid now) s).1).records (recordKey pid) =
      some (applyUpdate (procReqOf pid now) r₀) := by
    rw [updateRecord_found (procReqOf pid now) s r₀ hrec]
    exact kvGet_kvPut_self _ _ _
  have hfail := updateRecord_found (failReqOf pid (failMessageOf mobile desktop))
    ((updateRecord (procReqOf pid now) s).1) (applyUpdate (procReqOf pid now) r₀) hproc
  refine ⟨rfl, rfl, rfl, failMessageOf_ne_empty mobile desktop, rfl, ?_, rfl, rfl, rfl⟩
  rw [hfail]
  exact kvGet_kvPut_self _ _ _

/-- Witness for C3 (amended): a run against a concrete pending record where
the desktop fetch failed with message boom. -/
theorem runFullReport_upstream_error_marks_failed_witness :
    (runFullReport "u" (some "p") "f"
        { error := none, payload := "m" } { error := some "boom", payload := "" }
        100 c3Store).ok = false ∧
    kvGet (runFullReport "u" (some "p") "f"
        { error := none, payload := "m" } { error := some "boom", payload := "" }
        100 c3Store).store.records (recordKey "p") =
      some (applyUpdate (failReqOf "p" (failMessageOf
          { error := none, payload := "m" } { error := some "boom", payload := "" }))
        (applyUpdate (procReqOf "p" 100) c3Record)) :=
  ⟨(runFullReport_upstream_error_marks_failed "u" "p" "f"
      { error := none, payload := "m" } { error := some "boom", payload := "" }
      100 c3Store c3Record (by decide) (by decide) (by decide) (by decide)).1,
   (runFullReport_upstream_error_marks_failed "u" "p" "f"
      { error := none, payload := "m" } { error := some "boom", payload := "" }
      100 c3Store c3Record (by decide) (by decide) (by decide) (by decide)).2.2.2.2.2.1⟩

/-! ## C8: the success path of runFullReport -/

/-- C8: when both fetches succeed, the two results are serialized as the
two-element array with the mobile result first, written once to the blob
store under the key derived from the publicId and the encoded target URL
with the three-day expiry instant attached as metadata, and the record is
updated to completed with dataUrl equal to that key. -/
theorem runFullReport_success_completes (url pid freshId : String)
    (mobile desktop : ApiResult) (now : Int) (s : KVStore) (r₀ : StoredRecord)
    (hurl : url ≠ "") (hpid : pid ≠ "")
    (hrec : kvGet s.records (recordKey pid) = some r₀)
    (hm : mobile.error = none) (hd : desktop.error = none) :
    (runFullReport url (some pid) freshId mobile desktop now s).ok = true ∧
    (runFullReport url (some pid) freshId mobile desktop now s).puts =
      [{ key := bucketKey pid url
         body := "[" ++ mobile.payload ++ "," ++ desktop.payload ++ "]"
         contentType := "application/json"
         expiresAtMs := now + 3 * 24 * 60 * 60 * 1000 }] ∧
    bucketKey pid url = "results/" ++ pid ++ "-" ++ encodeURIComponent url ++ ".json" ∧
    kvGet (runFullReport url (some pid) freshId mobile desktop now s).store.records
        (recordKey pid) =
      some (applyUpdate (compReqOf pid (bucketKey pid url))
        (applyUpdate (procReqOf pid now) r₀)) ∧
    (applyUpdate (compReqOf pid (bucketKey pid url))
        (applyUpdate (procReqOf pid now) r₀)).status = "completed" ∧
    (applyUpdate (compReqOf pid (bucketKey pid url))
        (applyUpdate (procReqOf pid now) r₀)).dataUrl = bucketKey pid url ∧
    bucketKey pid url ≠ "" := by
  have hok : (jsTruthyStr mobile.error || jsTruthyStr desktop.error) = false := by
    rw [hm, hd]
    rfl
  rw [runFullReport_success_run url pid freshId mobile desktop now s hurl hpid hok]
  have hproc : kvGet ((updateRecord (procReqOf pid now) s).1).records (recordKey pid) =
      some (applyUpdate (procReqOf pid now) r₀) := by
    rw [updateRecord_found (procReqOf pid now) s r₀ hrec]
    exact kvGet_kvPut_self _ _ _
  have hcomp := updateRecord_found (compReqOf pid (bucketKey pid url))
    ((updateRecord (procReqOf pid now) s).1) (applyUpdate (procReqOf pid now) r₀) hproc
  refine ⟨rfl, ?_, rfl, ?_, rfl, rfl, bucketKey_ne_empty pid url⟩
  · simp [saveResultsToBucket, stringifyPair, RESULTS_EXPIRY_DAYS]
  · rw [hcomp]
    exact kvGet_kvPut_self _ _ _

def c8Record : StoredRecord :=
  { publicId := "q", url := "x", formFactor := "ALL", date := 0,
    status := "pending", dataUrl := "", processingStartedAt := none }

def c8Store : KVStore :=
  { records := [(recordKey "q", c8Record)], urls := [(urlKey "x", "q")] }

/-- Witness for C8: a run against a concrete pending record with both
fetches succeeding. -/
theorem runFullReport_success_completes_witness :
    (runFullReport "x" (some "q") "f"
        { error := none, payload := "m" } { error := none, payload := "d" }
        100 c8Store).ok = true ∧
    (runFullReport "x" (some "q") "f"
        { error := none, payload := "m" } { error := none, payload := "d" }
        100 c8Store).puts =
      [{ key := bucketKey "q" "x"
         body := "[" ++ "m" ++ "," ++ "d" ++ "]"
         contentType := "application/json"
         expiresAtMs := 100 + 3 * 24 * 60 * 60 * 1000 }] :=
  ⟨(runFullReport_success_completes "x" "q" "f"
      { error := none, payload := "m" } { error := none, payload := "d" }
      100 c8Store c8Record (by decide) (by decide) (by decide) rfl rfl).1,
   (runFullReport_success_completes "x" "q" "f"
      { error := none, payload := "m" } { error := none, payload := "d" }
      100 c8Store c8Record (by decide) (by decide) (by decide) rfl rfl).2.1⟩

/-! ## C6: the read path and stuck detection -/

def c6Record : StoredRecord :=
  { publicId := "p1", url := "u", formFactor := "ALL", date := 0,
    status := "processing", dataUrl := "", processingStartedAt := some 0 }

def c6Store : KVStore :=
  { records := [(recordKey "p1", c6Record)], urls := [(urlKey "u", "p1")] }

/-- C6: a record that has been processing since instant 0, read at instant
600000 (ten minutes later, far past the three-minute threshold — the
stuck scan returns it at that very instant), is served as-is by
handleGetByPublicId without re-running the report, because every storage
read path omits processingStartedAt from the response object and the
handler computes isStuck from that absent property. -/
theorem stuck_processing_record_not_rerun_inline :
    getStuckProcessingRecords STUCK_PROCESSING_THRESHOLD_MS 600000 c6Store =
      [stuckDtoOf c6Record] ∧
    (handleGetByPublicId (some "p1") [] c6Store 600000 "f1"
        { error := none, payload := "m" } { error := none, payload := "d" }).ranReport =
      false ∧
    (handleGetByPublicId (some "p1") [] c6Store 600000 "f1"
        { error := none, payload := "m" } { error := none, payload := "d" }).body =
      .record (recordToResponse [] c6Record) ∧
    (handleGetByPublicId (some "p1") [] c6Store 600000 "f1"
        { error := none, payload := "m" } { error := none, payload := "d" }).store =
      c6Store ∧
    (handleGetByPublicId (some "p1") [] c6Store 600000 "f1"
        { error := none, payload := "m" } { error := none, payload := "d" }).status = 200 := by
  decide

/-! ## C9, C10: the root route -/

/-- The record the create branch of the root route persists: pending, empty
dataUrl, null processingStartedAt, form factor ALL. -/
def newPendingRecord (url freshId : String) (now : Int) : StoredRecord :=
  { publicId := freshId, url := url, formFactor := "ALL", date := now,
    status := "pending", dataUrl := "", processingStartedAt := none }

theorem getRecordByPublicId_after_create (u freshId : String) (now : Int)
    (bucket : List (String × String)) (s : KVStore) :
    getRecordByPublicId (createPendingRecord ⟨u, "ALL", "pending", .obj0⟩ freshId now s).2
        bucket (createPendingRecord ⟨u, "ALL", "pending", .obj0⟩ freshId now s).1 =
      some (recordToResponse bucket (newPendingRecord u freshId now)) := by
  unfold getRecordByPublicId createPendingRecord newPendingRecord
  simp [kvGet_kvPut_self]

/-- C9: on the root route a missing or empty url parameter yields 400; a
fresh record in status completed, pending or processing is returned with
200 whatever the key parameter holds; when no fresh record exists and the
key strictly equals the secret, a pending record is created and returned
with 200; when no fresh record exists and the key does not match (missing
key included), the response is 401. -/
theorem handleReportRequest_spec (apiKey secret : Option String) (now : Int)
    (freshId : String) (bucket : List (String × String)) (s : KVStore) :
    (handleReportRequest none apiKey secret now freshId bucket s).status = 400 ∧
    (handleReportRequest (some "") apiKey secret now freshId bucket s).status = 400 ∧
    (∀ u ex, u ≠ "" →
      getRecordByUrl u (now - CACHE_DURATION_MS) bucket s = some ex →
      (ex.status = "completed" ∨ ex.status = "pending" ∨ ex.status = "processing") →
      handleReportRequest (some u) apiKey secret now freshId bucket s =
        { status := 200, body := .record (some ex), store := s }) ∧
    (∀ u, u ≠ "" →
      getRecordByUrl u (now - CACHE_DURATION_MS) bucket s = none →
      keyMatches apiKey secret = true →
      handleReportRequest (some u) apiKey secret now freshId bucket s =
        { status := 200
          body := .record (some (recordToResponse bucket (newPendingRecord u freshId now)))
          store := (createPendingRecord ⟨u, "ALL", "pending", .obj0⟩ freshId now s).1 }) ∧
    (∀ u, u ≠ "" →
      getRecordByUrl u (now - CACHE_DURATION_MS) bucket s = none →
      keyMatches apiKey secret = false →
      (handleReportRequest (some u) apiKey secret now freshId bucket s).status = 401) := by
  refine ⟨rfl, by simp [handleReportRequest], ?_, ?_, ?_⟩
  · intro u ex hu hlook hstat
    rcases hstat with h | h | h
    all_goals simp [handleReportRequest, hu, hlook, h]
  · intro u hu hlook hkey
    simp [handleReportRequest, hu, hlook, hkey, getRecordByPublicId_after_create]
  · intro u hu hlook hkey
    simp [handleReportRequest, hu, hlook, hkey]

/-- Witness for C9: an authorized request for a URL with no record creates
and returns the pending record. -/
theorem handleReportRequest_spec_witness :
    handleReportRequest (some "x") (some "k") (some "k") 0 "f" [] { records := [], urls := [] } =
      { status := 200
        body := .record (some (recordToResponse [] (newPendingRecord "x" "f" 0)))
        store := (createPendingRecord ⟨"x", "ALL", "pending", .obj0⟩ "f" 0
          { records := [], urls := [] }).1 } :=
  (handleReportRequest_spec (some "k") (some "k") 0 "f" []
      { records := [], urls := [] }).2.2.2.1 "x" (by decide) (by decide) (by decide)

def c10Failed : StoredRecord :=
  { publicId := "p0", url := "w", formFactor := "ALL", date := 0,
    status := "failed", dataUrl := "", processingStartedAt := none }

def c10Store : KVStore :=
  { records := [(recordKey "p0", c10Failed)], urls := [(urlKey "w", "p0")] }

/-- C10: when the freshness-windowed lookup finds a failed record, the root
route does not return it: it falls through to the key check, and with a
valid key creates and returns a brand-new pending record for the same URL
(the returned body differs from the failed record); with an invalid key it
responds 401. -/
theorem failed_record_not_returned_creates_new_pending
    (u : String) (apiKey secret : Option String) (now : Int) (freshId : String)
    (bucket : List (String × String)) (s : KVStore) (ex : RecordResponse)
    (hu : u ≠ "")
    (hlook : getRecordByUrl u (now - CACHE_DURATION_MS) bucket s = some ex)
    (hfail : ex.status = "failed") :
    (keyMatches apiKey secret = true →
      handleReportRequest (some u) apiKey secret now freshId bucket s =
        { status := 200
          body := .record (some (recordToResponse bucket (newPendingRecord u freshId now)))
          store := (createPendingRecord ⟨u, "ALL", "pending", .obj0⟩ freshId now s).1 } ∧
      (recordToResponse bucket (newPendingRecord u freshId now)).status = "pending" ∧
      RootBody.record (some (recordToResponse bucket (newPendingRecord u freshId now))) ≠
        RootBody.record (some ex)) ∧
    (keyMatches apiKey secret = false →
      (handleReportRequest (some u) apiKey secret now freshId bucket s).status = 401) := by
  constructor
  · intro hkey
    refine ⟨?_, rfl, ?_⟩
    · simp [handleReportRequest, hu, hlook, hfail, hkey, getRecordByPublicId_after_create]
    · simp only [ne_eq, RootBody.record.injEq, Option.some.injEq]
      intro hEq
      have hstat := congrArg RecordResponse.status hEq
      rw [hfail] at hstat
      exact absurd (show "pending" = ("failed" : String) from hstat) (by decide)
  · intro hkey
    simp [handleReportRequest, hu, hlook, hfail, hkey]

/-- Witness for C10: a store holding only a fresh failed record for the URL
w; an authorized request returns a new pending record. -/
theorem failed_record_not_returned_creates_new_pending_witness :
    handleReportRequest (some "w") (some "k") (some "k") 0 "f" [] c10Store =
      { status := 200
        body := .record (some (recordToResponse [] (newPendingRecord "w" "f" 0)))
        store := (createPendingRecord ⟨"w", "ALL", "pending", .obj0⟩ "f" 0 c10Store).1 } :=
  ((failed_record_not_returned_creates_new_pending "w" (some "k") (some "k") 0 "f" []
      c10Store (recordToResponse [] c10Failed)
      (by decide) (by decide) (by decide)).1 (by decide)).1

end WebPerf
